import Mathlib

/-!
Shallow embedding of `backend/wearables/main.py`, the bootstrap file of the
wearables-gateway HTTP service.  The process environment is a partial map
from variable names to string values.  Python-level behaviours that the
bootstrap relies on (truthiness of `bool(...)`, the semantics of `int(...)`
on strings, `os.environ` lookups) are embedded explicitly; external
collaborators whose code is not under `src/` (python-dotenv, flask_cors,
the `apiVersions.v2` router module) are modelled from the specification and
marked as such in their doc comments.
-/

/-- The process environment: a partial map from variable names to values. -/
def Env : Type := String → Option String

/-- Python exceptions that the bootstrap can raise. -/
inductive PyErr : Type
  /-- raised by `os.environ[k]` when `k` is absent -/
  | keyError
  /-- raised by `int(s)` when `s` does not parse as an integer -/
  | valueError
  /-- any failure raised inside the external `sentry_sdk.init` call -/
  | initError
deriving DecidableEq, Repr

/-- ASCII whitespace stripped by the Python `int` constructor. -/
def isPySpace (c : Char) : Bool :=
  c = ' ' || c = '\t' || c = '\n' || c = '\r' || c = '\x0b' || c = '\x0c'

/-- Digits of a Python integer literal after the first digit: each further
character is a digit, or a single underscore followed by a digit. -/
def pyIntRest : Nat → List Char → Option Nat
  | acc, [] => some acc
  | acc, '_' :: c :: cs =>
      if c.isDigit then pyIntRest (10 * acc + (c.toNat - 48)) cs else none
  | acc, c :: cs =>
      if c.isDigit then pyIntRest (10 * acc + (c.toNat - 48)) cs else none

/-- Unsigned digit string of a Python integer literal: nonempty, starting
with a digit, with single underscores allowed between digits. -/
def pyUDigits : List Char → Option Nat
  | [] => none
  | c :: cs => if c.isDigit then pyIntRest (c.toNat - 48) cs else none

/-- Semantics of the Python `int(s)` constructor on a string: surrounding
ASCII whitespace is stripped, an optional sign precedes the digits, and a
failure to parse is `none` (a `ValueError` at the call site). -/
def pyInt (s : String) : Option Int :=
  match (((s.toList.dropWhile isPySpace).reverse.dropWhile isPySpace).reverse) with
  | '+' :: rest => (pyUDigits rest).map Int.ofNat
  | '-' :: rest => (pyUDigits rest).map (fun n => -(n : Int))
  | rest => (pyUDigits rest).map Int.ofNat

/-- A Python value as it appears in `os.environ.get(k, default)`: either a
string from the environment or the supplied default (here always a bool). -/
inductive PyVal : Type
  | str (s : String)
  | pybool (b : Bool)
deriving DecidableEq, Repr

/-- Python truthiness, `bool(v)`: a string is truthy iff nonempty. -/
def pyTruthy : PyVal → Bool
  | .str s => !s.isEmpty
  | .pybool b => b

/-- Semantics of `os.environ.get(k, d)`: the stored string when present,
else the default. -/
def envGetD (env : Env) (k : String) (d : PyVal) : PyVal :=
  match env k with
  | some s => .str s
  | none => d

/-- The `host` argument of `app.run`: `os.environ.get('APP_HOST', '0.0.0.0')`. -/
def hostArg (env : Env) : String :=
  match env "APP_HOST" with
  | some s => s
  | none => "0.0.0.0"

/-- The `port` argument of `app.run`:
`int(os.environ.get('APP_PORT', 6644))`.  When the variable is absent the
default is already the integer 6644; when present, `int` parses the string
and raises `ValueError` on failure. -/
def portArg (env : Env) : Except PyErr Int :=
  match env "APP_PORT" with
  | none => .ok 6644
  | some s =>
      match pyInt s with
      | some n => .ok n
      | none => .error .valueError

/-- The `debug` argument of `app.run`:
`bool(os.environ.get('APP_DEBUG', False))`. -/
def debugArg (env : Env) : Bool :=
  pyTruthy (envGetD env "APP_DEBUG" (.pybool false))

/-- Arguments the Listener is started with. -/
structure ListenerCfg : Type where
  host : String
  port : Int
  debug : Bool
deriving DecidableEq, Repr

/-- Evaluation of the `app.run(host=..., port=..., debug=...)` call in the
`__main__` guard: the argument expressions are evaluated first, and a
`ValueError` from the port conversion propagates, so the Listener never
starts in that case. -/
def listenerStart (env : Env) : Except PyErr ListenerCfg :=
  match portArg env with
  | .error e => .error e
  | .ok p => .ok ⟨hostArg env, p, debugArg env⟩

/-- A JSON-like value, enough for the payloads in this fragment. -/
inductive JVal : Type
  | str (s : String)
  | arr (xs : List JVal)
  | obj (fields : List (String × JVal))

/-- An HTTP response: status code, headers, body. -/
structure Response : Type where
  status : Nat
  headers : List (String × String)
  body : JVal

/-- A registered route: a path and the response its handler returns.  The
handlers visible in this fragment take no request inputs. -/
structure Route : Type where
  path : String
  response : Response

/-- The web-application object: its route table and whether the CORS
middleware has been attached. -/
structure App : Type where
  routes : List Route
  corsEnabled : Bool

/-- Construction of the bare application object, `Flask(__name__)`. -/
def flaskNew : App := ⟨[], false⟩

/-- Modelled from the spec: flask_cors is an external collaborator not under
`src/`.  Per the spec, `CORS(app)` wraps the application so that every
outbound response carries permissive cross-origin headers, uniformly for
all routes.  We record the attachment as a flag on the application. -/
def CORS (a : App) : App := { a with corsEnabled := true }

/-- Registration of one route on the application, as `@app.route(path)`. -/
def addRoute (a : App) (r : Route) : App := { a with routes := a.routes ++ [r] }

/-- Body returned by the root handler, the Python dict literal
`\x7b'service': 'wearables-gateway', 'version': 'v2', 'endpoints': ['/api/v2/']\x7d`. -/
def rootBody : JVal :=
  .obj [("service", .str "wearables-gateway"),
        ("version", .str "v2"),
        ("endpoints", .arr [.str "/api/v2/"])]

/-- Return value of the `root` handler: the body dict and the status 200. -/
def root : JVal × Nat := (rootBody, 200)

/-- Conversion of a handler return value `(body, status)` into a response,
as the framework does for a dict return. -/
def mkResponse (p : JVal × Nat) : Response := ⟨p.2, [], p.1⟩

/-- The route registered for `GET /`. -/
def rootRoute : Route := ⟨"/", mkResponse root⟩

/-- Modelled from the spec: the module `apiVersions.v2` is not present under
`src/`.  Per the spec its contract is that `init_app(app)` mutates the
application by registering the v2 routes, all of which live under the
`/api/v2/` path prefix.  We model it as registering an arbitrary list of
routes, constrained to that prefix where a claim needs it. -/
def init_app_v2 (v2Routes : List Route) (a : App) : App :=
  v2Routes.foldl addRoute a

/-- Default not-found response produced by the framework for an unmatched
path; its body is not customised by this fragment. -/
def notFound : Response := ⟨404, [], .obj []⟩

/-- Modelled from the spec: the CORS middleware intercepts every outbound
response and adds a header permitting cross-origin requests from any
origin. -/
def corsWrap (enabled : Bool) (r : Response) : Response :=
  if enabled then
    { r with headers := r.headers ++ [("Access-Control-Allow-Origin", "*")] }
  else r

/-- Request dispatch: the first route whose path matches handles the
request, otherwise the framework returns its not-found response; the CORS
middleware then processes the outbound response. -/
def dispatch (a : App) (path : String) : Response :=
  corsWrap a.corsEnabled
    (match a.routes.find? (fun r => r.path == path) with
     | some r => r.response
     | none => notFound)

/-- Modelled from the spec: python-dotenv is an external collaborator not
under `src/`.  Per the spec, `load_dotenv()` loads the local `.env`-style
file into the environment without overriding variables that already exist,
and raises no error when the file is absent.  The optional file is given as
its list of key-value pairs, `none` when absent. -/
def load_dotenv (file : Option (List (String × String))) (env : Env) : Env :=
  match file with
  | none => env
  | some kvs => fun k =>
      match env k with
      | some v => some v
      | none => (kvs.find? (fun p => p.1 == k)).map Prod.snd

/-- Arguments passed to `sentry_sdk.init`. -/
structure SentryConfig : Type where
  dsn : String
  traces_sample_rate : ℚ
deriving DecidableEq, Repr

/-- Evaluation of the argument expressions of the `sentry_sdk.init(...)`
call: `os.environ['SENTRY_DSN']` raises a `KeyError` when the variable is
absent; otherwise the client is configured with that DSN and with
`traces_sample_rate=1.0`. -/
def sentryInitArgs (env : Env) : Except PyErr SentryConfig :=
  match env "SENTRY_DSN" with
  | none => .error .keyError
  | some d => .ok ⟨d, 1⟩

/-- Observable events of the startup sequence: a call into the external
`sentry_sdk.init`, or a log line (the bootstrap never emits one). -/
inductive StartupEvent : Type
  | sentryInit (cfg : SentryConfig)
  | logMessage (msg : String)
deriving DecidableEq, Repr

/-- The body of the `try:` block: evaluate the init arguments (which can
raise `KeyError`) and call the external `sentry_sdk.init`.  Whether that
external call itself raises for a given configuration is abstracted by the
oracle `initThrows`.  Returns the events emitted and the outcome. -/
def telemetryTryBody (initThrows : SentryConfig → Bool) (env : Env) :
    List StartupEvent × Except PyErr Unit :=
  match sentryInitArgs env with
  | .error e => ([], .error e)
  | .ok cfg =>
      ([.sentryInit cfg], if initThrows cfg then .error .initError else .ok ())

/-- The bare `except: pass` handler: any error is discarded, nothing is
logged, nothing is re-raised, nothing is retried. -/
def tryExceptPass {ε α : Type} : Except ε α → Option α
  | .ok a => some a
  | .error _ => none

/-- The application object as composed at module load: `Flask(__name__)`,
then `CORS(app)`, then the root route, then `init_v2(app)`.  The commented
`init_v1(app)` registration is absent, so no v1 route is ever added. -/
def builtApp (v2Routes : List Route) : App :=
  init_app_v2 v2Routes (addRoute (CORS flaskNew) rootRoute)

/-- Execution of the module body of `main.py` up to and including the
router mount: load the dotenv file, attempt telemetry initialization under
the bare `try/except`, construct the application, attach CORS, register
the root route, mount the v2 router.  An uncaught exception in any step
would propagate and abort the module load; the only step that can raise is
wrapped, so its error is swallowed by `tryExceptPass`. -/
def moduleLoad (initThrows : SentryConfig → Bool)
    (file : Option (List (String × String))) (v2Routes : List Route)
    (env0 : Env) : Except PyErr (List StartupEvent × Env × App) :=
  let env := load_dotenv file env0
  let (evs, res) := telemetryTryBody initThrows env
  match tryExceptPass res with
  | _ => .ok (evs, env, builtApp v2Routes)

/-- Execution of the whole script as `__main__`: the module load followed
by `app.run(...)`.  A `ValueError` from the port conversion propagates and
the Listener never starts. -/
def runMain (initThrows : SentryConfig → Bool)
    (file : Option (List (String × String))) (v2Routes : List Route)
    (env0 : Env) : Except PyErr (List StartupEvent × App × ListenerCfg) :=
  match moduleLoad initThrows file v2Routes env0 with
  | .error e => .error e
  | .ok (evs, env, a) =>
      match listenerStart env with
      | .error e => .error e
      | .ok cfg => .ok (evs, a, cfg)

/-- Whether a startup event is a call into `sentry_sdk.init`. -/
def isSentryInitEvent : StartupEvent → Bool
  | .sentryInit _ => true
  | .logMessage _ => false

theorem init_app_v2_routes (rs : List Route) (a : App) :
    (init_app_v2 rs a).routes = a.routes ++ rs := by
  induction rs generalizing a with
  | nil => simp [init_app_v2]
  | cons r rs ih =>
      show (init_app_v2 rs (addRoute a r)).routes = a.routes ++ r :: rs
      rw [ih]
      simp [addRoute]

theorem init_app_v2_cors (rs : List Route) (a : App) :
    (init_app_v2 rs a).corsEnabled = a.corsEnabled := by
  induction rs generalizing a with
  | nil => rfl
  | cons r rs ih =>
      show (init_app_v2 rs (addRoute a r)).corsEnabled = a.corsEnabled
      rw [ih]
      rfl

theorem builtApp_routes (rs : List Route) :
    (builtApp rs).routes = rootRoute :: rs := by
  simp [builtApp, init_app_v2_routes, addRoute, CORS, flaskNew]

theorem builtApp_cors (rs : List Route) : (builtApp rs).corsEnabled = true := by
  simp [builtApp, init_app_v2_cors, addRoute, CORS, flaskNew]

theorem load_dotenv_preserves (file : Option (List (String × String)))
    (env : Env) (k v : String) (h : env k = some v) :
    load_dotenv file env k = some v := by
  cases file with
  | none => exact h
  | some kvs => simp [load_dotenv, h]

theorem moduleLoad_eq (o : SentryConfig → Bool)
    (f : Option (List (String × String))) (rs : List Route) (e0 : Env) :
    moduleLoad o f rs e0 =
      .ok ((telemetryTryBody o (load_dotenv f e0)).1, load_dotenv f e0,
           builtApp rs) := by
  unfold moduleLoad
  rcases h : telemetryTryBody o (load_dotenv f e0) with ⟨evs, res⟩
  simp [h]

theorem telemetryTryBody_events (o : SentryConfig → Bool) (env : Env) :
    (telemetryTryBody o env).1 = [] ∨
    ∃ cfg, (telemetryTryBody o env).1 = [StartupEvent.sentryInit cfg] := by
  unfold telemetryTryBody sentryInitArgs
  cases env "SENTRY_DSN" <;> simp

/-- C1: for every environment state (SENTRY_DSN present, absent, or
invalid) and every behaviour of the external init call, the module load
reaches the application-construction step and completes: its result is the
composed application, no log event is emitted, nothing propagates, and the
init call is attempted at most once (no retry). -/
theorem startup_reaches_app_construction (initThrows : SentryConfig → Bool)
    (file : Option (List (String × String))) (v2Routes : List Route)
    (env0 : Env) :
    ∃ evs env, moduleLoad initThrows file v2Routes env0 =
        .ok (evs, env, builtApp v2Routes) ∧
      (∀ m, StartupEvent.logMessage m ∉ evs) ∧
      (evs.filter isSentryInitEvent).length ≤ 1 := by
  refine ⟨(telemetryTryBody initThrows (load_dotenv file env0)).1,
    load_dotenv file env0, moduleLoad_eq initThrows file v2Routes env0, ?_, ?_⟩
  · rcases telemetryTryBody_events initThrows (load_dotenv file env0) with h | ⟨cfg, h⟩ <;>
      simp [h]
  · rcases telemetryTryBody_events initThrows (load_dotenv file env0) with h | ⟨cfg, h⟩ <;>
      simp [h, isSentryInitEvent]

/-- C2: the handler for GET / returns exactly the literal payload with
service "wearables-gateway", version "v2" and endpoints ["/api/v2/"], with
status 200; it takes no inputs, and dispatching / on the composed
application yields that payload and status (plus the CORS header),
whatever the configuration and the v2 routes. -/
theorem root_returns_fixed_payload :
    root = (JVal.obj [("service", JVal.str "wearables-gateway"),
                      ("version", JVal.str "v2"),
                      ("endpoints", JVal.arr [JVal.str "/api/v2/"])], 200) ∧
    ∀ v2Routes : List Route,
      dispatch (builtApp v2Routes) "/" =
        ⟨200, [("Access-Control-Allow-Origin", "*")],
         JVal.obj [("service", JVal.str "wearables-gateway"),
                   ("version", JVal.str "v2"),
                   ("endpoints", JVal.arr [JVal.str "/api/v2/"])]⟩ := by
  refine ⟨rfl, fun v2Routes => ?_⟩
  unfold dispatch
  rw [builtApp_routes, builtApp_cors]
  simp [rootRoute, corsWrap, mkResponse, root, rootBody]

/-- C6: every response produced by dispatch, for every path and every set
of mounted v2 routes, carries the Access-Control-Allow-Origin star header;
there is no per-route exception. -/
theorem every_response_has_cors_header (v2Routes : List Route) (p : String) :
    ("Access-Control-Allow-Origin", "*") ∈
      (dispatch (builtApp v2Routes) p).headers := by
  unfold dispatch
  rw [builtApp_cors]
  cases (builtApp v2Routes).routes.find? (fun r => r.path == p) <;>
    simp [corsWrap]

/-- C7: a key already present in the environment keeps its value across the
dotenv load (file values never override pre-existing variables), and
loading with the file absent is a no-op that raises no error. -/
theorem dotenv_never_overrides (file : Option (List (String × String)))
    (env : Env) (k v : String) (h : env k = some v) :
    load_dotenv file env k = some v ∧ load_dotenv none env = env :=
  ⟨load_dotenv_preserves file env k v h, rfl⟩

/-- C3: when APP_DEBUG is unset, or set to a value whose Python truthiness
is false (for a string, only the empty string), the debug argument is
false and any Listener that starts has debug mode disabled. -/
theorem debug_disabled_when_unset_or_falsy (env : Env)
    (h : env "APP_DEBUG" = none ∨
         ∃ s, env "APP_DEBUG" = some s ∧ pyTruthy (PyVal.str s) = false) :
    debugArg env = false ∧
    ∀ cfg, listenerStart env = .ok cfg → cfg.debug = false := by
  have hd : debugArg env = false := by
    rcases h with h | ⟨s, hs, ht⟩
    · unfold debugArg envGetD
      rw [h]
      rfl
    · unfold debugArg envGetD
      rw [hs]
      exact ht
  refine ⟨hd, fun cfg hcfg => ?_⟩
  unfold listenerStart at hcfg
  cases hp : portArg env with
  | error e => rw [hp] at hcfg; exact absurd hcfg (by simp)
  | ok p =>
      rw [hp] at hcfg
      injection hcfg with h2
      rw [← h2]
      exact hd

/-- Concrete environment holding only APP_DEBUG set to the empty string. -/
def envDebugEmpty : Env := fun k => if k = "APP_DEBUG" then some "" else none

/-- Witness for C3 at a concrete environment: APP_DEBUG holds the falsy
empty string, and the debug flag is off. -/
theorem debug_disabled_witness :
    debugArg envDebugEmpty = false ∧
    ∀ cfg, listenerStart envDebugEmpty = .ok cfg → cfg.debug = false :=
  debug_disabled_when_unset_or_falsy envDebugEmpty
    (Or.inr ⟨"", by decide, rfl⟩)

/-- C10: for every nonempty string value of APP_DEBUG, including "false"
and "0", the debug argument is true, because the flag is the Python
truthiness of the raw string. -/
theorem nonempty_debug_enables_debug (env : Env) (s : String)
    (hs : env "APP_DEBUG" = some s) (hne : s ≠ "") :
    debugArg env = true ∧
    ∀ cfg, listenerStart env = .ok cfg → cfg.debug = true := by
  have hd : debugArg env = true := by
    unfold debugArg envGetD
    rw [hs]
    show (!s.isEmpty) = true
    have : s.isEmpty = false := by
      cases he : s.isEmpty
      · rfl
      · exact absurd ((String.isEmpty_iff s).mp he) hne
    rw [this]
    rfl
  refine ⟨hd, fun cfg hcfg => ?_⟩
  unfold listenerStart at hcfg
  cases hp : portArg env with
  | error e => rw [hp] at hcfg; exact absurd hcfg (by simp)
  | ok p =>
      rw [hp] at hcfg
      injection hcfg with h2
      rw [← h2]
      exact hd

/-- Concrete environment holding only APP_DEBUG set to the string "false". -/
def envDebugFalse : Env := fun k => if k = "APP_DEBUG" then some "false" else none

/-- Witness for C10 at a concrete environment: APP_DEBUG holds the string
"false", and debug mode is nevertheless enabled. -/
theorem nonempty_debug_enables_debug_witness :
    debugArg envDebugFalse = true ∧
    ∀ cfg, listenerStart envDebugFalse = .ok cfg → cfg.debug = true :=
  nonempty_debug_enables_debug envDebugFalse "false" (by decide) (by decide)

/-- C4: with APP_PORT unset the Listener binds to port 6644; with APP_PORT
a string that the Python int constructor accepts, it binds to that port;
with APP_HOST unset it binds to host 0.0.0.0. -/
theorem listener_binds_configured_port_host (env : Env) (s : String) (n : Int) :
    (env "APP_PORT" = none →
        listenerStart env = .ok ⟨hostArg env, 6644, debugArg env⟩) ∧
    (env "APP_PORT" = some s → pyInt s = some n →
        listenerStart env = .ok ⟨hostArg env, n, debugArg env⟩) ∧
    (env "APP_HOST" = none → hostArg env = "0.0.0.0") := by
  refine ⟨fun h => ?_, fun h hp => ?_, fun h => ?_⟩
  · simp [listenerStart, portArg, h]
  · simp [listenerStart, portArg, h, hp]
  · simp [hostArg, h]

/-- Concrete environment with nothing set. -/
def envEmpty : Env := fun _ => none

/-- Concrete environment holding only APP_PORT set to "8080". -/
def envPort8080 : Env := fun k => if k = "APP_PORT" then some "8080" else none

/-- Witness for C4 at concrete environments: with nothing set the Listener
gets host 0.0.0.0 and port 6644; with APP_PORT set to "8080" it gets port
8080. -/
theorem listener_binds_witness :
    listenerStart envEmpty = .ok ⟨"0.0.0.0", 6644, false⟩ ∧
    listenerStart envPort8080 = .ok ⟨"0.0.0.0", 8080, false⟩ := by
  constructor
  · exact (listener_binds_configured_port_host envEmpty "" 0).1 rfl
  · exact (listener_binds_configured_port_host envPort8080 "8080" 8080).2.1
      (by decide) (by decide)

/-- C9: when APP_PORT holds a nonempty string that the Python int
constructor rejects, running the script raises a ValueError and the
Listener never starts; and whenever APP_PORT is set, a successfully
computed port always comes from parsing that string, never from the
silent default. -/
theorem invalid_port_aborts_startup (initThrows : SentryConfig → Bool)
    (file : Option (List (String × String))) (v2Routes : List Route)
    (env0 : Env) (s : String)
    (hset : env0 "APP_PORT" = some s) (hne : s ≠ "") (hbad : pyInt s = none) :
    runMain initThrows file v2Routes env0 = .error PyErr.valueError ∧
    (∀ env : Env, ∀ s2 : String, ∀ p : Int,
        env "APP_PORT" = some s2 → portArg env = .ok p → pyInt s2 = some p) := by
  constructor
  · have henv : load_dotenv file env0 "APP_PORT" = some s :=
      load_dotenv_preserves file env0 _ s hset
    unfold runMain
    rw [moduleLoad_eq]
    simp [listenerStart, portArg, henv, hbad]
  · intro env s2 p h1 h2
    unfold portArg at h2
    rw [h1] at h2
    cases hp : pyInt s2 with
    | none => simp [hp] at h2
    | some m =>
        simp [hp] at h2
        rw [h2]

/-- Concrete environment holding only APP_PORT set to the unparseable
string "http". -/
def envBadPort : Env := fun k => if k = "APP_PORT" then some "http" else none

/-- Witness for C9 at a concrete environment: APP_PORT holds "http" and
running the script ends in a ValueError before the Listener starts. -/
theorem invalid_port_aborts_startup_witness :
    runMain (fun _ => false) none [] envBadPort = .error PyErr.valueError :=
  (invalid_port_aborts_startup (fun _ => false) none [] envBadPort "http"
    (by decide) (by decide) (by decide)).1

/-- C8: when SENTRY_DSN is present in the environment, the telemetry client
is initialized with exactly that DSN and with traces_sample_rate 1, and
the module load records exactly that one init call. -/
theorem telemetry_uses_dsn_full_sampling (initThrows : SentryConfig → Bool)
    (file : Option (List (String × String))) (v2Routes : List Route)
    (env0 : Env) (d : String)
    (h : load_dotenv file env0 "SENTRY_DSN" = some d) :
    sentryInitArgs (load_dotenv file env0) = .ok ⟨d, 1⟩ ∧
    ∃ env a, moduleLoad initThrows file v2Routes env0 =
        .ok ([StartupEvent.sentryInit ⟨d, 1⟩], env, a) := by
  have hargs : sentryInitArgs (load_dotenv file env0) = .ok ⟨d, 1⟩ := by
    unfold sentryInitArgs
    rw [h]
  refine ⟨hargs, load_dotenv file env0, builtApp v2Routes, ?_⟩
  rw [moduleLoad_eq]
  unfold telemetryTryBody
  rw [hargs]

/-- Concrete environment holding only SENTRY_DSN. -/
def envDSN : Env :=
  fun k => if k = "SENTRY_DSN" then some "https://key@o0.ingest.sentry.example/7" else none

/-- Witness for C8 at a concrete environment: with SENTRY_DSN set, the init
arguments are that DSN with sampling rate 1, and the module load records
the one init call. -/
theorem telemetry_uses_dsn_witness :
    sentryInitArgs (load_dotenv none envDSN) =
      .ok ⟨"https://key@o0.ingest.sentry.example/7", 1⟩ ∧
    ∃ env a, moduleLoad (fun _ => false) none [] envDSN =
        .ok ([StartupEvent.sentryInit
              ⟨"https://key@o0.ingest.sentry.example/7", 1⟩], env, a) :=
  telemetry_uses_dsn_full_sampling (fun _ => false) none [] envDSN
    "https://key@o0.ingest.sentry.example/7" (by decide)

theorem v1_prefix_not_v2_prefix (l : List Char)
    (h1 : "/api/v1/".toList <+: l) (h2 : "/api/v2/".toList <+: l) : False := by
  obtain ⟨t1, e1⟩ := h1
  obtain ⟨t2, e2⟩ := h2
  rw [← e1] at e2
  have hv1 : "/api/v1/".toList = ['/', 'a', 'p', 'i', '/', 'v', '1', '/'] := rfl
  have hv2 : "/api/v2/".toList = ['/', 'a', 'p', 'i', '/', 'v', '2', '/'] := rfl
  rw [hv1, hv2] at e2
  simp only [List.cons_append, List.cons.injEq] at e2
  exact absurd e2.2.2.2.2.2.2.1 (by decide)

/-- C5: only the v2 router is mounted: the route table of the composed
application is exactly the root route followed by the v2 routes (no v1
registration exists); every path under /api/v1/ gets the not-found
response, and every path registered by the v2 router is dispatched to a v2
handler. -/
theorem v1_unmounted_v2_dispatched (v2Routes : List Route)
    (hv2 : ∀ r ∈ v2Routes, "/api/v2/".toList <+: r.path.toList) :
    (builtApp v2Routes).routes = rootRoute :: v2Routes ∧
    (∀ p : String, "/api/v1/".toList <+: p.toList →
        dispatch (builtApp v2Routes) p = corsWrap true notFound) ∧
    (∀ p : String, (∃ r ∈ v2Routes, r.path = p) →
        ∃ r ∈ v2Routes, r.path = p ∧
          dispatch (builtApp v2Routes) p = corsWrap true r.response) := by
  refine ⟨builtApp_routes v2Routes, fun p hp => ?_, fun p hex => ?_⟩
  · have hnone : (builtApp v2Routes).routes.find? (fun r => r.path == p) = none := by
      rw [builtApp_routes, List.find?_eq_none]
      intro r hr
      rcases List.mem_cons.mp hr with h | h
      · subst h
        intro hb
        have hpe : rootRoute.path = p := by simpa using hb
        have hroot : rootRoute.path = "/" := rfl
        rw [hroot] at hpe
        rw [← hpe] at hp
        have hlen := hp.length_le
        exact absurd hlen (by decide)
      · intro hb
        have hpe : r.path = p := by simpa using hb
        exact v1_prefix_not_v2_prefix p.toList hp (hpe ▸ hv2 r h)
    unfold dispatch
    rw [builtApp_cors, hnone]
  · obtain ⟨r0, hr0, hr0p⟩ := hex
    have hhead : ¬ ((fun r => r.path == p) rootRoute = true) := by
      intro hb
      have hpe : rootRoute.path = p := by simpa using hb
      have hroot : rootRoute.path = "/" := rfl
      rw [hroot] at hpe
      have hv := hv2 r0 hr0
      rw [hr0p, ← hpe] at hv
      have hlen := hv.length_le
      exact absurd hlen (by decide)
    have hsome : (v2Routes.find? (fun r => r.path == p)).isSome := by
      rw [List.find?_isSome]
      exact ⟨r0, hr0, by simp [hr0p]⟩
    obtain ⟨r, hr⟩ := Option.isSome_iff_exists.mp hsome
    refine ⟨r, List.mem_of_find?_eq_some hr,
      by simpa using List.find?_some hr, ?_⟩
    have hf : (rootRoute.path == p) = false := by simpa using hhead
    have hfind : List.find? (fun r => r.path == p) (rootRoute :: v2Routes)
        = some r := by
      simp only [List.find?, hf]
      exact hr
    unfold dispatch
    rw [builtApp_cors, builtApp_routes, hfind]

/-- Concrete v2 route list for the witness: one route at /api/v2/. -/
def demoV2 : List Route := [⟨"/api/v2/", ⟨200, [], JVal.obj []⟩⟩]

/-- Witness for C5 at a concrete route list: the composed route table is
the root route plus the one v2 route, and a /api/v1/ path gets the
not-found response. -/
theorem v1_unmounted_witness :
    (builtApp demoV2).routes = rootRoute :: demoV2 ∧
    dispatch (builtApp demoV2) "/api/v1/records" = corsWrap true notFound := by
  have h := v1_unmounted_v2_dispatched demoV2 (by
    intro r hr
    simp only [demoV2, List.mem_singleton] at hr
    subst hr
    exact List.prefix_refl _)
  exact ⟨h.1, h.2.1 "/api/v1/records" (by decide)⟩

/-- Concrete environment holding only APP_HOST, for the dotenv witness. -/
def envPre : Env := fun k => if k = "APP_HOST" then some "127.0.0.1" else none

/-- Witness for C7 at a concrete environment and file: a pre-existing
APP_HOST keeps its value although the file carries another one, and an
absent file leaves the environment untouched. -/
theorem dotenv_never_overrides_witness :
    load_dotenv (some [("APP_HOST", "10.0.0.9")]) envPre "APP_HOST" =
      some "127.0.0.1" ∧
    load_dotenv none envPre = envPre :=
  dotenv_never_overrides (some [("APP_HOST", "10.0.0.9")]) envPre
    "APP_HOST" "127.0.0.1" (by decide)
